import Mathlib

/-!
Verification development for the VideoCreatorStats ingestion pipeline.

The pipeline ingests a creators table and a videos table, cleans each one with a
declarative per-column QA rule list (`IngestionFile.clean_data` in
`include/VideoCreatorStats/utils.py`, rule lists in `config.py`), joins them
(`VideoCreatorStats.process_data` in `process.py`), and computes aggregate
statistics and TF-IDF keyword rankings.

The embedding below models pandas DataFrames as schema-plus-rows tables whose
cells are optional values (missing = pandas NA/NaN), the rule engine as an
explicit state-passing function that also returns the log trace and the final
state of the (mutated in place) underlying DataFrame object, and the sklearn
`TfidfVectorizer(stop_words='english')` scoring with its documented defaults
(smoothed idf, l2 document normalisation) over the reals.
-/

/-- A scalar value held in a table cell: the pipeline's columns hold integers
(pandas Int64) or strings. -/
inductive Value where
  | int (n : Int)
  | str (s : String)
deriving DecidableEq, Repr

/-- A cell is a value or a missing entry (pandas NA / NaN). -/
abbrev Cell := Option Value

/-- A row of a DataFrame: an association list from column name to cell. -/
abbrev Row := List (String × Cell)

/-- A pandas DataFrame: schema (column names) plus rows.  In a well-formed
DataFrame every row binds exactly the schema columns, in schema order. -/
structure Table where
  cols : List String
  rows : List Row
deriving DecidableEq, Repr

instance {ε α : Type} [DecidableEq ε] [DecidableEq α] : DecidableEq (Except ε α) := fun x y =>
  match x, y with
  | .ok a, .ok b =>
      if h : a = b then .isTrue (by rw [h]) else .isFalse (fun hc => by cases hc; exact h rfl)
  | .error a, .error b =>
      if h : a = b then .isTrue (by rw [h]) else .isFalse (fun hc => by cases hc; exact h rfl)
  | .ok _, .error _ => .isFalse (fun hc => by cases hc)
  | .error _, .ok _ => .isFalse (fun hc => by cases hc)

/-- Column-name and key constants of the two schemas. -/
def creatorIdCol : String := "creator_id"

def usernameCol : String := "username"

def followerCountCol : String := "follower_count"

def avgViewsCol : String := "avg_views"

def categoryCol : String := "category"

def bioCol : String := "bio"

def videoIdCol : String := "video_id"

def viewsCol : String := "views"

def likesCol : String := "likes"

def commentsCol : String := "comments"

def sharesCol : String := "shares"

def captionCol : String := "caption"

/-- The dict key looked up at line 50 of `utils.py`. -/
def shouldFailKey : String := "should_fail"

/-- The cell of column `c` in a row (`df[c]` restricted to one row).  A column
absent from the row reads as missing; the engine guards its own column accesses
with a schema check, so this default is only exercised on ill-formed tables. -/
def cellAt (r : Row) (c : String) : Cell := (r.lookup c).getD none

/-- The cells of column `c`, top to bottom (`df[c]`). -/
def colCells (t : Table) (c : String) : List Cell := t.rows.map (fun r => cellAt r c)

/-- Models `df[c].isnull().any()`. -/
def hasNull (t : Table) (c : String) : Bool := (colCells t c).any (fun cell => cell.isNone)

/-- `fillna`: a missing cell becomes `v`, a present value is untouched. -/
def fillCell (v : Value) : Cell → Cell
  | none => some v
  | some x => some x

/-- Substitute `v` for every missing cell of column `c` in one row. -/
def fillRow (c : String) (v : Value) (r : Row) : Row :=
  r.map (fun p => if p.1 = c then (p.1, fillCell v p.2) else p)

/-- Models `df[c] = df[c].fillna(v)` (an in-place update of the DataFrame). -/
def fillCol (t : Table) (c : String) (v : Value) : Table :=
  ⟨t.cols, t.rows.map (fillRow c v)⟩

/-- Overwrite column `c` of one row with a given cell. -/
def setRowCell (c : String) (r : Row) (cell : Cell) : Row :=
  r.map (fun p => if p.1 = c then (p.1, cell) else p)

/-- Models `df[c] = series` for a freshly computed series (used by the rule
engine's post-processing step; the rule lists in `config.py` do not use it).
The computed series always has one entry per row. -/
def setColCells (t : Table) (c : String) (cells : List Cell) : Table :=
  ⟨t.cols, t.rows.zipWith (setRowCell c) cells⟩

/-- Project a row onto a column list, in that order (used to read the
video-side part back out of a merged row). -/
def restrictRow (cols : List String) (r : Row) : Row :=
  cols.map (fun c => (c, cellAt r c))

/-- The Python exceptions the pipeline can raise.

`raisedNone` models line 38 of `utils.py`: `raise logging.error(...)`.
`logging.error` logs the message and returns `None`, and `raise None` throws
`TypeError: exceptions must derive from BaseException`; the load still aborts
at table level, but the raised object carries no message (the message only
reaches the log). -/
inductive PyError where
  | keyError (key : String)
  | valueError (msg : String)
  | typeError (msg : String)
  | indexError (msg : String)
  | raisedNone
deriving DecidableEq, Repr

/-- Modelled from the spec: the spec's error taxonomy (section 7) names
`IntegrityError` the fatal data-quality abort raised by `clean_data`, covering
both the missing-value-with-no-default path (line 38 of `utils.py`, a
`raisedNone`) and the fatal-assertion path (line 51, a `ValueError`).  The code
itself defines no `IntegrityError` class. -/
def isIntegrityError : PyError → Bool
  | .valueError _ => true
  | .raisedNone => true
  | _ => false

/-- One entry of the `logging` trace. -/
inductive LogEvent where
  | warning (msg : String)
  | error (msg : String)
deriving DecidableEq, Repr

/-- One entry of a rule's `warnings` list in `config.py`. -/
structure QAWarning where
  message : String
  condition : Table → Bool

/-- One entry of a rule's `assertions` list in `config.py`.  `should_fail :=
none` models the `"should_fail"` key being absent from the dict (as in the
`username` type assertion and the `category`/`bio`/`caption` assertions). -/
structure QAAssertion where
  message : String
  condition : Table → Bool
  should_fail : Option Bool := none

/-- One column rule of a QA pipeline (one dict of the lists in `config.py`).
`type` is only used by `load_data` for the CSV dtype map, never by
`clean_data`. -/
structure QARule where
  col : String
  type : String := ""
  fill_na : Option Value := none
  warnings : List QAWarning := []
  assertions : List QAAssertion := []
  post_processing : List (List Cell → List Cell) := []

/-- The warnings step of `clean_data` (lines 41-44 of `utils.py`): evaluate
each predicate on the current table and log on true; never aborts. -/
def runWarnings (fn : String) : List QAWarning → Table → List LogEvent
  | [], _ => []
  | w :: rest, t =>
    (if w.condition t then [.warning (fn ++ " - " ++ w.message)] else [])
      ++ runWarnings fn rest t

/-- The assertions step of `clean_data` (lines 46-51 of `utils.py`): evaluate
each predicate on the current table; on true, log an error and look up
`should_fail` — a missing key raises `KeyError`, `True` raises `ValueError`,
`False` continues with the next assertion. -/
def runAssertions (fn : String) : List QAAssertion → Table → List LogEvent × Option PyError
  | [], _ => ([], none)
  | a :: rest, t =>
    if a.condition t then
      match a.should_fail with
      | none => ([.error (fn ++ " - " ++ a.message)], some (.keyError shouldFailKey))
      | some true =>
          ([.error (fn ++ " - " ++ a.message)], some (.valueError (fn ++ " - " ++ a.message)))
      | some false =>
          let r := runAssertions fn rest t
          (.error (fn ++ " - " ++ a.message) :: r.1, r.2)
    else runAssertions fn rest t

/-- The post-processing step of `clean_data` (lines 53-55 of `utils.py`):
`df[col] = f(df[col])` for each listed function, in order. -/
def applyPost : List (List Cell → List Cell) → String → Table → Table
  | [], _, t => t
  | f :: fs, c, t => applyPost fs c (setColCells t c (f (colCells t c)))

/-- Result of processing one rule: the log entries it emitted, the exception it
raised (if any), and the state of the DataFrame when it finished or aborted. -/
structure StepResult where
  log : List LogEvent
  err : Option PyError
  state : Table

/-- The part of one rule after NA handling: warnings, assertions,
post-processing, all evaluated against the post-fill table state `t1`. -/
def afterFill (fn : String) (qa : QARule) (t1 : Table) : StepResult :=
  let wlog := runWarnings fn qa.warnings t1
  match runAssertions fn qa.assertions t1 with
  | (alog, some e) => ⟨wlog ++ alog, some e, t1⟩
  | (alog, none) => ⟨wlog ++ alog, none, applyPost qa.post_processing qa.col t1⟩

/-- One iteration of the `for qa in self.qa_pipeline` loop of `clean_data`
(lines 29-55 of `utils.py`).  NA handling first: with a `fill_na` value the
column's missing cells are substituted (mutating the DataFrame); without one,
any missing cell logs an error and raises (`raise logging.error(...)`, i.e.
`raisedNone`).  A rule naming a column absent from the schema raises `KeyError`
on its first column access. -/
def applyRule (fn : String) (qa : QARule) (t : Table) : StepResult :=
  if qa.col ∈ t.cols then
    match qa.fill_na with
    | some v => afterFill fn qa (fillCol t qa.col v)
    | none =>
      if hasNull t qa.col then
        ⟨[.error (fn ++ " - Column " ++ qa.col ++ " contains null values.")], some .raisedNone, t⟩
      else afterFill fn qa t
  else ⟨[], some (.keyError qa.col), t⟩

/-- Result of a `clean_data` call: the log trace, the returned table or raised
exception, and the final state of the DataFrame object that was passed in
(`self.data`): the fills already performed persist in it even when a later rule
aborts, because `df[col] = ...` mutates the object in place. -/
structure CleanResult where
  log : List LogEvent
  result : Except PyError Table
  final : Table
deriving DecidableEq, Repr

/-- `IngestionFile.clean_data` (lines 23-57 of `utils.py`): run the rules in
declaration order, stopping at the first raised exception. -/
def clean_data (fn : String) : List QARule → Table → CleanResult
  | [], t => ⟨[], .ok t, t⟩
  | qa :: rest, t =>
    let s := applyRule fn qa t
    match s.err with
    | some e => ⟨s.log, .error e, s.state⟩
    | none =>
      let r := clean_data fn rest s.state
      ⟨s.log ++ r.log, r.result, r.final⟩

/-- Models `df[c].apply(p).any()` for a per-cell Python predicate `p`. -/
def anyCell (t : Table) (c : String) (p : Cell → Bool) : Bool := (colCells t c).any p

/-- Python `not isinstance(x, int)`: true on strings and on missing entries
(`pd.NA` is not an `int`). -/
def notIntCell : Cell → Bool
  | some (.int _) => false
  | _ => true

/-- Python `not isinstance(x, str)`: true on integers and on missing entries. -/
def notStrCell : Cell → Bool
  | some (.str _) => false
  | _ => true

/-- Python `x < 0` on a column value.  A missing entry compares to `pd.NA`,
which `.any()` treats as false; comparing a string to `0` would raise
`TypeError` in Python, but the engine only evaluates this predicate on columns
that are integer-typed by schema, so that case is out of the modelled scope. -/
def negCell : Cell → Bool
  | some (.int n) => decide (n < 0)
  | _ => false

/-- Python `x == ""`. -/
def emptyStrCell : Cell → Bool
  | some (.str s) => decide (s = "")
  | _ => false

/-- The `creator_id` rule of `creator_qa_pipeline` in `config.py`. -/
def creatorIdRule : QARule :=
  { col := creatorIdCol, type := "Int64",
    warnings := [
      { message := "Creator ID is not an integer.",
        condition := fun df => anyCell df creatorIdCol notIntCell }],
    assertions := [
      { message := "Creator ID cannot be negative",
        condition := fun df => anyCell df creatorIdCol negCell,
        should_fail := some true }] }

/-- The `username` type assertion of `config.py` (lines 31-34): its dict has
no `should_fail` key. -/
def usernameTypeAssertion : QAAssertion :=
  { message := "Username is not a string.",
    condition := fun df => anyCell df usernameCol notStrCell }

/-- The `username` emptiness assertion of `config.py` (lines 35-39). -/
def usernameEmptyAssertion : QAAssertion :=
  { message := "Username cannot be empty",
    condition := fun df => anyCell df usernameCol emptyStrCell,
    should_fail := some true }

/-- The `username` rule of `creator_qa_pipeline` in `config.py`. -/
def usernameRule : QARule :=
  { col := usernameCol, type := "str",
    assertions := [usernameTypeAssertion, usernameEmptyAssertion] }

/-- The negative-count assertion of the `follower_count` rule. -/
def followerNegAssertion : QAAssertion :=
  { message := "Follower count cannot be negative",
    condition := fun df => anyCell df followerCountCol negCell,
    should_fail := some true }

/-- The `follower_count` rule of `creator_qa_pipeline` in `config.py`. -/
def followerCountRule : QARule :=
  { col := followerCountCol, type := "Int64", fill_na := some (.int 0),
    warnings := [
      { message := "Follower count is not an integer.",
        condition := fun df => anyCell df followerCountCol notIntCell }],
    assertions := [followerNegAssertion] }

/-- The `avg_views` rule of `creator_qa_pipeline` in `config.py`. -/
def avgViewsRule : QARule :=
  { col := avgViewsCol, type := "Int64", fill_na := some (.int 0),
    warnings := [
      { message := "Average views is not an integer.",
        condition := fun df => anyCell df avgViewsCol notIntCell }],
    assertions := [
      { message := "Average views cannot be negative",
        condition := fun df => anyCell df avgViewsCol negCell,
        should_fail := some true }] }

/-- The `category` rule of `creator_qa_pipeline` in `config.py`; its type
assertion has no `should_fail` key. -/
def categoryRule : QARule :=
  { col := categoryCol, type := "str", fill_na := some (.str ""),
    assertions := [
      { message := "Category is not a string.",
        condition := fun df => anyCell df categoryCol notStrCell }] }

/-- The `bio` rule of `creator_qa_pipeline` in `config.py`; its type assertion
has no `should_fail` key. -/
def bioRule : QARule :=
  { col := bioCol, type := "str", fill_na := some (.str ""),
    assertions := [
      { message := "Bio is not a string.",
        condition := fun df => anyCell df bioCol notStrCell }] }

/-- The `creator_qa_pipeline` rule list of `config.py`, column for column. -/
def creator_qa_pipeline : List QARule :=
  [creatorIdRule, usernameRule, followerCountRule, avgViewsRule, categoryRule, bioRule]

/-- The `videos_qa_pipeline` rule list of `config.py`, column for column. -/
def videos_qa_pipeline : List QARule := [
  { col := videoIdCol, type := "str",
    assertions := [
      { message := "Video ID is not a string.",
        condition := fun df => anyCell df videoIdCol notStrCell,
        should_fail := some true }] },
  { col := creatorIdCol, type := "Int64",
    warnings := [
      { message := "Creator ID is not an integer.",
        condition := fun df => anyCell df creatorIdCol notIntCell }],
    assertions := [
      { message := "Creator ID cannot be negative",
        condition := fun df => anyCell df creatorIdCol negCell,
        should_fail := some true }] },
  { col := viewsCol, type := "Int64", fill_na := some (.int 0),
    warnings := [
      { message := "Views is not an integer.",
        condition := fun df => anyCell df viewsCol notIntCell }],
    assertions := [
      { message := "Views cannot be negative",
        condition := fun df => anyCell df viewsCol negCell,
        should_fail := some true }] },
  { col := likesCol, type := "Int64", fill_na := some (.int 0),
    warnings := [
      { message := "Likes is not an integer.",
        condition := fun df => anyCell df likesCol notIntCell }],
    assertions := [
      { message := "Likes cannot be negative",
        condition := fun df => anyCell df likesCol negCell,
        should_fail := some true }] },
  { col := commentsCol, type := "Int64", fill_na := some (.int 0),
    warnings := [
      { message := "Comments is not an integer.",
        condition := fun df => anyCell df commentsCol notIntCell }],
    assertions := [
      { message := "Comments cannot be negative",
        condition := fun df => anyCell df commentsCol negCell,
        should_fail := some true }] },
  { col := sharesCol, type := "Int64", fill_na := some (.int 0),
    warnings := [
      { message := "Shares is not an integer.",
        condition := fun df => anyCell df sharesCol notIntCell }],
    assertions := [
      { message := "Shares cannot be negative",
        condition := fun df => anyCell df sharesCol negCell,
        should_fail := some true }] },
  { col := captionCol, type := "str", fill_na := some (.str ""),
    assertions := [
      { message := "Caption is not a string.",
        condition := fun df => anyCell df captionCol notStrCell }] }]

/-- The filename the creators `IngestionFile` is constructed with. -/
def creatorsCsv : String := "creators.csv"

def creatorSchema : List String :=
  [creatorIdCol, usernameCol, followerCountCol, avgViewsCol, categoryCol, bioCol]

/-- The creator rows whose `creator_id` equals that of video row `rv` (the
pandas merge key match; pandas matches NA merge keys with NA). -/
def creatorMatches (creators : Table) (rv : Row) : List Row :=
  creators.rows.filter (fun rc => cellAt rc creatorIdCol == cellAt rv creatorIdCol)

/-- Whether some creator row matches video row `rv` on `creator_id`. -/
def hasCreatorMatch (creators : Table) (rv : Row) : Bool :=
  creators.rows.any (fun rc => cellAt rc creatorIdCol == cellAt rv creatorIdCol)

/-- The right-hand (creator) part of a merged row: the merge key column
appears once (from the left side), and a right column whose name collides with
a left column is renamed with the `"_creator"` suffix
(`suffixes=('', '_creator')` at line 72 of `process.py`). -/
def renameRight (leftCols : List String) (rc : Row) : Row :=
  rc.filterMap (fun p =>
    if p.1 = creatorIdCol then none
    else if p.1 ∈ leftCols then some (p.1 ++ "_creator", p.2)
    else some p)

/-- The names the creator-side columns get in the merged schema. -/
def rightOutCols (leftCols rightCols : List String) : List String :=
  rightCols.filterMap (fun c =>
    if c = creatorIdCol then none
    else if c ∈ leftCols then some (c ++ "_creator")
    else some c)

/-- The all-NA creator part attached to a left-only row of a left outer
merge. -/
def naRight (leftCols rightCols : List String) : Row :=
  (rightOutCols leftCols rightCols).map (fun c => (c, none))

/-- The merge of a list of video rows against the creators table: one output
row per video row and matching creator row, or a single NA-extended row
flagged `left_only` (modelled `false`) when no creator matches. -/
def mergeRows (creators : Table) (lc : List String) (rows : List Row) : List (Row × Bool) :=
  rows.flatMap (fun rv =>
    let ms := creatorMatches creators rv
    if ms.isEmpty then [(rv ++ naRight lc creators.cols, false)]
    else ms.map (fun rc => (rv ++ renameRight lc rc, true)))

/-- `pd.merge(videos, creators, on='creator_id', how='left', indicator=True)`
(line 72 of `process.py`). -/
def merged_all (videos creators : Table) : List (Row × Bool) :=
  mergeRows creators videos.cols videos.rows

/-- `VideoCreatorStats.process_data` (lines 64-81 of `process.py`): left outer
merge, count the `left_only` rows, log the count as a warning when positive,
and keep only the `both` rows.  Returns (merged table, unmatched count, log). -/
def process_data (videos creators : Table) : Table × Nat × List LogEvent :=
  let all := merged_all videos creators
  let unmatched := (all.filter (fun p => !p.2)).length
  (⟨videos.cols ++ rightOutCols videos.cols creators.cols,
    (all.filter (fun p => p.2)).map Prod.fst⟩,
   unmatched,
   if unmatched > 0 then
     [.warning ("Found " ++ toString unmatched ++ " videos with unmatched creator_id")]
   else [])

/-- The integer carried by a cell, if any. -/
def intOfCell : Cell → Option Int
  | some (.int n) => some n
  | _ => none

/-- pandas `Series.sum()` on an integer column: missing entries are skipped and
the empty sum is 0. -/
def sumIntCells (cells : List Cell) : Int := (cells.filterMap intOfCell).sum

/-- pandas `Series.mean()` on an integer column: missing entries are skipped;
an empty or all-missing column yields NaN (modelled `none`). -/
def meanIntCells (cells : List Cell) : Option Rat :=
  let vals := cells.filterMap intOfCell
  if vals.isEmpty then none else some ((vals.sum : Rat) / (vals.length : Rat))

/-- Whether a column holds a string value (which makes a pandas numeric
reduction raise `TypeError`). -/
def containsStrCell (cells : List Cell) : Bool :=
  cells.any (fun c => match c with | some (.str _) => true | _ => false)

/-- pandas `Series.mean()` including its failure mode on non-numeric data. -/
def seriesMean (cells : List Cell) : Except PyError (Option Rat) :=
  if containsStrCell cells then
    .error (.typeError "could not compute the mean of a non-numeric column")
  else .ok (meanIntCells cells)

/-- The `ValueError` raised at line 93 of `process.py`, named `SchemaError` by
the spec's error taxonomy. -/
def schemaErrViews : PyError := .valueError "Column 'views' not found in merged data"

/-- `VideoCreatorStats.get_average_views_total` (lines 83-94 of `process.py`):
raise when the `views` column is absent from the merged table, otherwise the
mean of `views`. -/
def get_average_views_total (merged : Table) : Except PyError (Option Rat) :=
  if viewsCol ∈ merged.cols then seriesMean (colCells merged viewsCol)
  else .error schemaErrViews

/-- The value of the `virality_score` expression at line 244 of `process.py`,
kept symbolic: `npLog q` is the float `np.log(q)` applied to the exact ratio
`q`, and `num q` is a plain number (the `else 0` branch never evaluates any
logarithm, so `follower_count = 0` can produce no domain error). -/
inductive Virality where
  | num (q : Rat)
  | npLog (q : Rat)
deriving DecidableEq, Repr

/-- One row of the statistics table built by `generate_creator_stats_table`
(the dict at lines 251-262 of `process.py`).  `timestamp` and `updated_at` are
the wall-clock fields, passed in as parameters of the run. -/
structure CreatorStatsRecord where
  creator_id : Value
  timestamp : String
  username : Cell
  follower_count : Int
  avg_views : Option Rat
  top_category : Cell
  avg_engagement : Rat
  virality_score : Virality
  top_keywords : List String
  updated_at : String
deriving DecidableEq, Repr

/-- Comparison used by pandas to sort group keys; the keys in scope are
integers (comparing an integer key column against strings would raise in
Python and is out of the modelled scope). -/
def valueLeB : Value → Value → Bool
  | .int a, .int b => decide (a ≤ b)
  | .str a, .str b => decide (a < b) || a == b
  | .int _, .str _ => true
  | .str _, .int _ => false

/-- The group keys of `merged.groupby('creator_id')` (line 227 of
`process.py`): the distinct non-missing `creator_id` values, sorted (pandas
groupby sorts keys and drops NA keys by default). -/
def groupKeys (merged : Table) : List Value :=
  List.insertionSort (fun a b => valueLeB a b = true)
    ((merged.rows.filterMap (fun r => cellAt r creatorIdCol)).dedup)

/-- The rows of one `groupby('creator_id')` group. -/
def groupRows (merged : Table) (v : Value) : List Row :=
  merged.rows.filter (fun r => cellAt r creatorIdCol == some v)

/-- `total_engagement` at line 239 of `process.py`: likes + comments + shares
summed over the group. -/
def totalEngagement (g : List Row) : Int :=
  sumIntCells (g.map (fun r => cellAt r likesCol))
    + sumIntCells (g.map (fun r => cellAt r commentsCol))
    + sumIntCells (g.map (fun r => cellAt r sharesCol))

/-- The caption series handed to the keyword ranker for a group:
`fillna('')` then `astype(str)` (line 199 of `process.py`). -/
def cellToStr : Cell → String
  | none => ""
  | some (.str s) => s
  | some (.int n) => toString n

/-- The record the per-creator loop body of `generate_creator_stats_table`
(lines 231-262 of `process.py`) assembles for group key `v`, creator row
`info` and integer follower count `f`.  The keyword ranker is a parameter (the
pipeline instantiates it with the pooled TF-IDF ranking, `top_n=3`). -/
def buildRecord (ranker : List String → Nat → List String) (today upd : String)
    (merged : Table) (v : Value) (info : Row) (f : Int) : CreatorStatsRecord :=
  { creator_id := v,
    timestamp := today,
    username := cellAt info usernameCol,
    follower_count := f,
    avg_views := meanIntCells ((groupRows merged v).map (fun r => cellAt r viewsCol)),
    top_category := cellAt info categoryCol,
    avg_engagement :=
      if 0 < sumIntCells ((groupRows merged v).map (fun r => cellAt r viewsCol)) then
        (totalEngagement (groupRows merged v) : Rat) /
          (sumIntCells ((groupRows merged v).map (fun r => cellAt r viewsCol)) : Rat)
      else 0,
    virality_score :=
      if 0 < f then .npLog ((totalEngagement (groupRows merged v) : Rat) / (f : Rat))
      else .num 0,
    top_keywords := ranker ((groupRows merged v).map (fun r => cellToStr (cellAt r captionCol))) 3,
    updated_at := upd }

/-- The per-creator loop body itself.  `.iloc[0]` on an empty creator
selection raises `IndexError`; a missing or non-integer `follower_count`
makes the `follower_count > 0` comparison raise `TypeError` (for `pd.NA` the
ambiguous-truth-value error; both cases are outside the cleaned schema). -/
def buildOne (ranker : List String → Nat → List String) (today upd : String)
    (creators merged : Table) (v : Value) : Except PyError CreatorStatsRecord :=
  match (creators.rows.filter (fun r => cellAt r creatorIdCol == some v)).head? with
  | none => .error (.indexError "single positional indexer is out-of-bounds")
  | some info =>
    match intOfCell (cellAt info followerCountCol) with
    | some f => .ok (buildRecord ranker today upd merged v info f)
    | none => .error (.typeError "boolean value of NA is ambiguous")

/-- Run an `Except`-valued builder over a key list, stopping at the first
raised exception (the loop at line 231 of `process.py`). -/
def exceptMap (f : Value → Except PyError CreatorStatsRecord) :
    List Value → Except PyError (List CreatorStatsRecord)
  | [] => .ok []
  | v :: vs =>
    match f v with
    | .error e => .error e
    | .ok r =>
      match exceptMap f vs with
      | .error e => .error e
      | .ok rs => .ok (r :: rs)

/-- `VideoCreatorStats.generate_creator_stats_table` (lines 216-270 of
`process.py`), one record per `creator_id` group of the merged table. -/
def generate_creator_stats_table (ranker : List String → Nat → List String)
    (today upd : String) (creators merged : Table) :
    Except PyError (List CreatorStatsRecord) :=
  exceptMap (buildOne ranker today upd creators merged) (groupKeys merged)

/-- The built-in English stop word list of sklearn's text vectorizers
(`ENGLISH_STOP_WORDS`), applied to tokens by
`TfidfVectorizer(stop_words='english')`. -/
def stopWords : List String := [
  "a", "about", "above", "across", "after", "afterwards", "again", "against",
  "all", "almost", "alone", "along", "already", "also", "although", "always",
  "am", "among", "amongst", "amoungst", "amount", "an", "and", "another",
  "any", "anyhow", "anyone", "anything", "anyway", "anywhere", "are", "around",
  "as", "at", "back", "be", "became", "because", "become", "becomes",
  "becoming", "been", "before", "beforehand", "behind", "being", "below",
  "beside", "besides", "between", "beyond", "bill", "both", "bottom", "but",
  "by", "call", "can", "cannot", "cant", "co", "con", "could", "couldnt",
  "cry", "de", "describe", "detail", "do", "done", "down", "due", "during",
  "each", "eg", "eight", "either", "eleven", "else", "elsewhere", "empty",
  "enough", "etc", "even", "ever", "every", "everyone", "everything",
  "everywhere", "except", "few", "fifteen", "fifty", "fill", "find", "fire",
  "first", "five", "for", "former", "formerly", "forty", "found", "four",
  "from", "front", "full", "further", "get", "give", "go", "had", "has",
  "hasnt", "have", "he", "hence", "her", "here", "hereafter", "hereby",
  "herein", "hereupon", "hers", "herself", "him", "himself", "his", "how",
  "however", "hundred", "i", "ie", "if", "in", "inc", "indeed", "interest",
  "into", "is", "it", "its", "itself", "keep", "last", "latter", "latterly",
  "least", "less", "ltd", "made", "many", "may", "me", "meanwhile", "might",
  "mill", "mine", "more", "moreover", "most", "mostly", "move", "much",
  "must", "my", "myself", "name", "namely", "neither", "never",
  "nevertheless", "next", "nine", "no", "nobody", "none", "noone", "nor",
  "not", "nothing", "now", "nowhere", "of", "off", "often", "on", "once",
  "one", "only", "onto", "or", "other", "others", "otherwise", "our", "ours",
  "ourselves", "out", "over", "own", "part", "per", "perhaps", "please",
  "put", "rather", "re", "same", "see", "seem", "seemed", "seeming", "seems",
  "serious", "several", "she", "should", "show", "side", "since", "sincere",
  "six", "sixty", "so", "some", "somehow", "someone", "something",
  "sometime", "sometimes", "somewhere", "still", "such", "system", "take",
  "ten", "than", "that", "the", "their", "them", "themselves", "then",
  "thence", "there", "thereafter", "thereby", "therefore", "therein",
  "thereupon", "these", "they", "thick", "thin", "third", "this", "those",
  "though", "three", "through", "throughout", "thru", "thus", "to",
  "together", "too", "top", "toward", "towards", "twelve", "twenty", "two",
  "un", "under", "until", "up", "upon", "us", "very", "via", "was", "we",
  "well", "were", "what", "whatever", "when", "whence", "whenever", "where",
  "whereafter", "whereas", "whereby", "wherein", "whereupon", "wherever",
  "whether", "which", "while", "whither", "who", "whoever", "whole", "whom",
  "whose", "why", "will", "with", "within", "without", "would", "yet", "you",
  "your", "yours", "yourself", "yourselves"]

/-- A character matched by `\w` in the vectorizer's token pattern
`(?u)\b\w\w+\b` (restricted to the ASCII range the data uses). -/
def isWordChar (c : Char) : Bool := c.isAlphanum || c == '_'

/-- Split a lowercased character stream into maximal word-character runs. -/
def tokenSplit : List Char → List Char → List (List Char)
  | [], acc => if acc.isEmpty then [] else [acc.reverse]
  | c :: cs, acc =>
    if isWordChar c then tokenSplit cs (c :: acc)
    else if acc.isEmpty then tokenSplit cs []
    else acc.reverse :: tokenSplit cs []

/-- The vectorizer's analyzer: lowercase, extract tokens of at least two word
characters, drop English stop words. -/
def tokenize (s : String) : List String :=
  ((tokenSplit (s.data.map Char.toLower) []).map (fun cs => String.mk cs)).filter
    (fun t => decide (2 ≤ t.length) && !(stopWords.contains t))

/-- Lexicographic comparison of character streams by code point. -/
def charListLt : List Char → List Char → Bool
  | [], [] => false
  | [], _ :: _ => true
  | _ :: _, [] => false
  | a :: as, b :: bs =>
    if a.val < b.val then true else if b.val < a.val then false else charListLt as bs

/-- Lexicographic comparison on strings (the order `np.sort` puts the
vocabulary in). -/
def strLeB (a b : String) : Bool := charListLt a.data b.data || a == b

/-- The vectorizer's fitted vocabulary: the distinct tokens of the corpus in
sorted order (`get_feature_names_out`). -/
def vocabOf (docs : List (List String)) : List String :=
  List.insertionSort (fun a b => strLeB a b = true) docs.flatten.dedup

/-- Raw term frequency of term `t` in document `d` (sklearn's default
`CountVectorizer` counts). -/
def tf (d : List String) (t : String) : Nat := d.count t

/-- Document frequency of term `t` in the corpus. -/
def dfCount (docs : List (List String)) (t : String) : Nat :=
  (docs.filter (fun d => d.contains t)).length

/-- Smoothed inverse document frequency, sklearn's default
(`smooth_idf=True`): `ln((1+n)/(1+df)) + 1`. -/
noncomputable def idf (docs : List (List String)) (t : String) : ℝ :=
  Real.log (((docs.length : ℝ) + 1) / ((dfCount docs t : ℝ) + 1)) + 1

/-- Unnormalised TF-IDF entry of term `t` in document `d`. -/
noncomputable def rawVal (docs : List (List String)) (d : List String) (t : String) : ℝ :=
  (tf d t : ℝ) * idf docs t

/-- The l2 norm of one document's raw TF-IDF vector (sklearn's default
`norm='l2'`; a document with no vocabulary tokens has norm 0 and its row stays
all-zero, matching the division guard in sklearn). -/
noncomputable def docNorm (docs : List (List String)) (d : List String) : ℝ :=
  Real.sqrt (((vocabOf docs).map (fun u => rawVal docs d u ^ 2)).sum)

/-- One entry of the fitted TF-IDF matrix: the l2-normalised score of term `t`
in document `d`. -/
noncomputable def normVal (docs : List (List String)) (d : List String) (t : String) : ℝ :=
  rawVal docs d t / docNorm docs d

/-- `matrix.sum(axis=0)` for one term: the summed score of `t` over all
documents (line 207 of `process.py`). -/
noncomputable def pooledScore (docs : List (List String)) (t : String) : ℝ :=
  (docs.map (fun d => normVal docs d t)).sum

/-- The `(term, summed score)` pairs in ranked order: Python's stable
`sort(key=score, reverse=True)` over the vocabulary-ordered zip (lines 210-211
of `process.py`), i.e. descending score with ties kept in vocabulary order. -/
noncomputable def rankPooledPairs (docs : List (List String)) : List (String × ℝ) :=
  List.insertionSort (fun a b => b.2 ≤ a.2)
    ((vocabOf docs).map (fun t => (t, pooledScore docs t)))

/-- `VideoCreatorStats._get_top_keywords_for_text_series` (lines 188-214 of
`process.py`), the spec's `rankPooled`: empty result when the joined text
strips to nothing (every character of every text is whitespace) or the
vectorizer raises on an empty vocabulary; otherwise the top-N
terms by summed score. -/
noncomputable def get_top_keywords_for_text_series (texts : List String) (topN : Nat) :
    List String :=
  if texts.all (fun t => t.data.all Char.isWhitespace) then []
  else if (vocabOf (texts.map tokenize)).isEmpty then []
  else ((rankPooledPairs (texts.map tokenize)).take topN).map Prod.fst

/-- The ranked terms of one document for the per-item operation: the nonzero
entries of the document's matrix row in column (= vocabulary) order, stably
sorted by score descending (lines 177-183 of `process.py`). -/
noncomputable def perItemPairs (docs : List (List String)) (d : List String) :
    List (String × ℝ) :=
  List.insertionSort (fun a b => b.2 ≤ a.2)
    (((vocabOf docs).filter (fun t => decide (0 < tf d t))).map (fun t => (t, normVal docs d t)))

/-- `VideoCreatorStats._extract_keywords` (lines 150-186 of `process.py`), the
spec's `rankPerItem`: empty mapping when the caption series is empty or the
vectorizer raises on an empty vocabulary; otherwise the per-document top-N
terms keyed by id.  (In the pipeline `ids` and `captions` have equal length; a
duplicated id would overwrite its dict entry, which no claim exercises.) -/
noncomputable def extract_keywords (captions : List String) (ids : List Value) (topN : Nat) :
    List (Value × List String) :=
  if captions.isEmpty then []
  else if (vocabOf (captions.map tokenize)).isEmpty then []
  else (ids.zip (captions.map tokenize)).map
    (fun p => (p.1, ((perItemPairs (captions.map tokenize) p.2).take topN).map Prod.fst))

/-- `VideoCreatorStats.get_trending_keywords` (lines 118-131 of `process.py`):
pooled ranking over all captions of the merged table. -/
noncomputable def get_trending_keywords (merged : Table) (topN : Nat) : List String :=
  get_top_keywords_for_text_series ((colCells merged captionCol).map cellToStr) topN

instance : IsTotal (String × ℝ) (fun a b => b.2 ≤ a.2) :=
  ⟨fun a b => le_total b.2 a.2⟩

instance : IsTrans (String × ℝ) (fun a b => b.2 ≤ a.2) :=
  ⟨fun _ _ _ hab hbc => le_trans hbc hab⟩

/-- The table state a rule's warning and assertion predicates observe: the
rule's own fill (if any) has already been applied. -/
def postFill (qa : QARule) (t : Table) : Table :=
  match qa.fill_na with
  | some v => fillCol t qa.col v
  | none => t

/-- The exception an assertion raises when its predicate holds and its
`should_fail` entry is absent (`KeyError`) or `True` (`ValueError`). -/
def abortError (fn : String) (a : QAAssertion) : PyError :=
  match a.should_fail with
  | none => .keyError shouldFailKey
  | some _ => .valueError (fn ++ " - " ++ a.message)

/-- A creators table whose only row has a negative `follower_count`. -/
def negFollowerTable : Table :=
  ⟨creatorSchema,
   [[(creatorIdCol, some (.int 1)), (usernameCol, some (.str "u1")),
     (followerCountCol, some (.int (-5))), (avgViewsCol, some (.int 3)),
     (categoryCol, some (.str "Cat")), (bioCol, some (.str "b"))]]⟩

/-- A creators table whose only row has an integer `username` (so the
`username` type assertion, which has no `should_fail` key, fires). -/
def intUsernameTable : Table :=
  ⟨creatorSchema,
   [[(creatorIdCol, some (.int 1)), (usernameCol, some (.int 7)),
     (followerCountCol, some (.int 2)), (avgViewsCol, some (.int 3)),
     (categoryCol, some (.str "Cat")), (bioCol, some (.str "b"))]]⟩

/-- A creators table with a missing `follower_count` (filled by rule three)
and a negative `avg_views` (aborting rule four). -/
def fillThenAbortTable : Table :=
  ⟨creatorSchema,
   [[(creatorIdCol, some (.int 1)), (usernameCol, some (.str "u1")),
     (followerCountCol, none), (avgViewsCol, some (.int (-4))),
     (categoryCol, some (.str "Cat")), (bioCol, some (.str "b"))]]⟩

/-- `fillThenAbortTable` after the `follower_count` fill. -/
def fillThenAbortFilled : Table :=
  ⟨creatorSchema,
   [[(creatorIdCol, some (.int 1)), (usernameCol, some (.str "u1")),
     (followerCountCol, some (.int 0)), (avgViewsCol, some (.int (-4))),
     (categoryCol, some (.str "Cat")), (bioCol, some (.str "b"))]]⟩

/-- A creators table with a missing `username` on its second row (no
`fill_na`, so the username rule aborts on the null check). -/
def nullUsernameTable : Table :=
  ⟨creatorSchema,
   [[(creatorIdCol, some (.int 1)), (usernameCol, some (.str "u1")),
     (followerCountCol, some (.int 2)), (avgViewsCol, some (.int 3)),
     (categoryCol, some (.str "Cat")), (bioCol, some (.str "b"))],
    [(creatorIdCol, some (.int 2)), (usernameCol, none),
     (followerCountCol, some (.int 2)), (avgViewsCol, some (.int 3)),
     (categoryCol, some (.str "Cat")), (bioCol, some (.str "b"))]]⟩

/-- A creators table with one valid row but `follower_count` and `bio`
missing (both filled during a fully successful clean). -/
def fillOnlyTable : Table :=
  ⟨creatorSchema,
   [[(creatorIdCol, some (.int 1)), (usernameCol, some (.str "u1")),
     (followerCountCol, none), (avgViewsCol, some (.int 3)),
     (categoryCol, some (.str "Cat")), (bioCol, none)]]⟩

/-- `fillOnlyTable` after a successful clean: the missing cells carry the
configured fill values. -/
def fillOnlyCleaned : Table :=
  ⟨creatorSchema,
   [[(creatorIdCol, some (.int 1)), (usernameCol, some (.str "u1")),
     (followerCountCol, some (.int 0)), (avgViewsCol, some (.int 3)),
     (categoryCol, some (.str "Cat")), (bioCol, some (.str ""))]]⟩

/-- The creators `{1}` of the join example (spec section 8). -/
def joinCreatorsEx : Table :=
  ⟨[creatorIdCol, usernameCol],
   [[(creatorIdCol, some (.int 1)), (usernameCol, some (.str "u1"))]]⟩

/-- The videos `{(id=101,creator=1),(id=102,creator=999)}` of the join
example. -/
def joinVideosEx : Table :=
  ⟨[videoIdCol, creatorIdCol, viewsCol, captionCol],
   [[(videoIdCol, some (.int 101)), (creatorIdCol, some (.int 1)),
     (viewsCol, some (.int 100)), (captionCol, some (.str "a"))],
    [(videoIdCol, some (.int 102)), (creatorIdCol, some (.int 999)),
     (viewsCol, some (.int 200)), (captionCol, some (.str "b"))]]⟩

/-- A merged table whose `views` column holds 100 and 200 (the mean
example). -/
def viewsMeanTable : Table :=
  ⟨[videoIdCol, creatorIdCol, viewsCol],
   [[(videoIdCol, some (.int 101)), (creatorIdCol, some (.int 1)),
     (viewsCol, some (.int 100))],
    [(videoIdCol, some (.int 102)), (creatorIdCol, some (.int 1)),
     (viewsCol, some (.int 200))]]⟩

/-- A merged table with no `views` column. -/
def noViewsTable : Table :=
  ⟨[videoIdCol, creatorIdCol],
   [[(videoIdCol, some (.int 101)), (creatorIdCol, some (.int 1))]]⟩

/-- A cleaned creators table whose creator has zero followers. -/
def zeroFollowerCreators : Table :=
  ⟨creatorSchema,
   [[(creatorIdCol, some (.int 1)), (usernameCol, some (.str "u1")),
     (followerCountCol, some (.int 0)), (avgViewsCol, some (.int 0)),
     (categoryCol, some (.str "Cat")), (bioCol, some (.str ""))]]⟩

/-- A merged table for that creator with positive engagement (the
`test_virality_score_edge_case` data). -/
def zeroFollowerMerged : Table :=
  ⟨[videoIdCol, creatorIdCol, viewsCol, likesCol, commentsCol, sharesCol, captionCol],
   [[(videoIdCol, some (.int 101)), (creatorIdCol, some (.int 1)),
     (viewsCol, some (.int 1000)), (likesCol, some (.int 10)),
     (commentsCol, some (.int 5)), (sharesCol, some (.int 2)),
     (captionCol, some (.str "test"))]]⟩

/-- A keyword ranker that always returns the empty list (used to instantiate
the ranker parameter where the keyword output is irrelevant). -/
def trivialRanker : List String → Nat → List String := fun _ _ => []

/-- The creators row of the zero-follower example. -/
def zfInfoRow : Row :=
  [(creatorIdCol, some (.int 1)), (usernameCol, some (.str "u1")),
   (followerCountCol, some (.int 0)), (avgViewsCol, some (.int 0)),
   (categoryCol, some (.str "Cat")), (bioCol, some (.str ""))]

/-- The stats record the pipeline builds for the zero-follower creator. -/
def zeroFollowerRecord : CreatorStatsRecord :=
  buildRecord trivialRanker "2026-01-01" "t" zeroFollowerMerged (.int 1) zfInfoRow 0

/-- The caption corpus of the pooled-ranking example (spec section 8 and
`test_trending_keywords`). -/
def exampleCaptions : List String :=
  ["viral viral trend", "viral trend cool", "viral something else"]

/-- The example corpus after the vectorizer's analysis: `something` and `else`
are stop words. -/
def exampleDocs : List (List String) :=
  [["viral", "viral", "trend"], ["viral", "trend", "cool"], ["viral"]]

/-- Texts that are blank or all stop words (a degenerate corpus). -/
def degenerateTexts : List String := ["the of and", "   "]

theorem clean_data_ok_final (fn : String) (rules : List QARule) (t t2 : Table)
    (h : (clean_data fn rules t).result = .ok t2) : (clean_data fn rules t).final = t2 := by
  induction rules generalizing t with
  | nil =>
    simp [clean_data] at h ⊢
    exact h
  | cons qa rest ih =>
    cases hs : (applyRule fn qa t).err with
    | some e => simp [clean_data, hs] at h
    | none =>
      simp only [clean_data, hs] at h ⊢
      exact ih _ h

theorem clean_data_append (fn : String) (pre post : List QARule) (t t2 : Table)
    (lg : List LogEvent) (h : clean_data fn pre t = ⟨lg, .ok t2, t2⟩) :
    clean_data fn (pre ++ post) t =
      ⟨lg ++ (clean_data fn post t2).log, (clean_data fn post t2).result,
       (clean_data fn post t2).final⟩ := by
  induction pre generalizing t lg with
  | nil =>
    have h1 : lg = [] := by
      have hc := congrArg CleanResult.log h
      simpa [clean_data] using hc.symm
    have h2 : t2 = t := by
      have hc := congrArg CleanResult.final h
      simpa [clean_data] using hc.symm
    subst h1
    subst h2
    simp [clean_data]
  | cons qa rest ih =>
    cases hs : (applyRule fn qa t).err with
    | some e =>
      simp [clean_data, hs] at h
    | none =>
      simp only [clean_data, hs, List.cons_append, List.append_eq] at h ⊢
      rw [CleanResult.mk.injEq] at h
      obtain ⟨hl, hr, hf⟩ := h
      have hrest : clean_data fn rest ((applyRule fn qa t).state) =
          ⟨(clean_data fn rest ((applyRule fn qa t).state)).log, .ok t2, t2⟩ := by
        rw [← hr, ← hf]
      rw [ih _ _ hrest, ← hl]
      simp
  
theorem clean_data_cons_error (fn : String) (qa : QARule) (rest : List QARule) (t : Table)
    (e : PyError) (h : (applyRule fn qa t).err = some e) :
    clean_data fn (qa :: rest) t =
      ⟨(applyRule fn qa t).log, .error e, (applyRule fn qa t).state⟩ := by
  simp [clean_data, h]

/-- C1: a rule with no `fill_na` whose column still holds a missing entry when
the rule runs (i.e. on the table state the earlier rules produced) makes
`clean_data` raise immediately — the whole table load fails at table level, no
cleaned table is returned, and no later rule contributes to the log.  The
raised object is the `raise logging.error(...)` abort of line 38 of
`utils.py`, the missing-value case of the spec's `IntegrityError` taxonomy. -/
theorem clean_data_missing_no_fill_aborts
    (fn : String) (pre : List QARule) (r : QARule) (post : List QARule)
    (t t2 : Table) (lg : List LogEvent)
    (hpre : clean_data fn pre t = ⟨lg, .ok t2, t2⟩)
    (hcol : r.col ∈ t2.cols) (hfill : r.fill_na = none)
    (hnull : hasNull t2 r.col = true) :
    (clean_data fn (pre ++ r :: post) t).result = .error .raisedNone ∧
    (clean_data fn (pre ++ r :: post) t).log =
      lg ++ [.error (fn ++ " - Column " ++ r.col ++ " contains null values.")] ∧
    isIntegrityError .raisedNone = true := by
  have hstep : applyRule fn r t2 =
      ⟨[.error (fn ++ " - Column " ++ r.col ++ " contains null values.")],
       some .raisedNone, t2⟩ := by
    simp [applyRule, hcol, hfill, hnull]
  have hcons := clean_data_cons_error fn r post t2 .raisedNone (by rw [hstep])
  have happ := clean_data_append fn pre (r :: post) t t2 lg hpre
  rw [happ, hcons, hstep]
  exact ⟨rfl, rfl, rfl⟩

/-- Witness for C1: in the creators pipeline, a table whose `username` column
has a missing entry passes the `creator_id` rule and then aborts the whole
load at the `username` rule. -/
theorem clean_data_missing_no_fill_aborts_witness :
    clean_data creatorsCsv [creatorIdRule] nullUsernameTable =
      ⟨[], .ok nullUsernameTable, nullUsernameTable⟩ ∧
    ((clean_data creatorsCsv creator_qa_pipeline nullUsernameTable).result =
      .error .raisedNone ∧
    (clean_data creatorsCsv creator_qa_pipeline nullUsernameTable).log =
      [] ++ [.error (creatorsCsv ++ " - Column " ++ usernameRule.col ++
        " contains null values.")] ∧
    isIntegrityError .raisedNone = true) := by
  refine ⟨by decide, ?_⟩
  exact clean_data_missing_no_fill_aborts creatorsCsv [creatorIdRule] usernameRule
    [followerCountRule, avgViewsRule, categoryRule, bioRule]
    nullUsernameTable nullUsernameTable []
    (by decide) (by decide) (by decide) (by decide)

/-- C10: cleaning is not atomic on failure.  When the rules split as
`pre ++ post`, `pre` succeeds (performing its fills on the underlying
DataFrame), and `post` aborts, the whole run aborts with the same error while
the object's final state is exactly the state `post` left behind — built on
top of the fills `pre` already performed, not on the original input. -/
theorem clean_data_partial_mutation_persists
    (fn : String) (pre post : List QARule) (t t2 : Table) (lg : List LogEvent) (e : PyError)
    (hpre : clean_data fn pre t = ⟨lg, .ok t2, t2⟩)
    (herr : (clean_data fn post t2).result = .error e) :
    (clean_data fn (pre ++ post) t).result = .error e ∧
    (clean_data fn (pre ++ post) t).final = (clean_data fn post t2).final := by
  have happ := clean_data_append fn pre post t t2 lg hpre
  rw [happ]
  exact ⟨herr, rfl⟩

/-- Witness for C10: a creators table whose `follower_count` is missing is
filled by rule three, then rule four aborts on a negative `avg_views`; the
input object ends up partially modified (the fill persists), not unchanged. -/
theorem clean_data_partial_mutation_persists_witness :
    clean_data creatorsCsv [creatorIdRule, usernameRule, followerCountRule] fillThenAbortTable =
      ⟨[], .ok fillThenAbortFilled, fillThenAbortFilled⟩ ∧
    (clean_data creatorsCsv [avgViewsRule, categoryRule, bioRule] fillThenAbortFilled).result =
      .error (.valueError ("creators.csv - Average views cannot be negative")) ∧
    ((clean_data creatorsCsv creator_qa_pipeline fillThenAbortTable).result =
      .error (.valueError ("creators.csv - Average views cannot be negative")) ∧
     (clean_data creatorsCsv creator_qa_pipeline fillThenAbortTable).final =
      (clean_data creatorsCsv [avgViewsRule, categoryRule, bioRule] fillThenAbortFilled).final) ∧
    (clean_data creatorsCsv creator_qa_pipeline fillThenAbortTable).final = fillThenAbortFilled ∧
    fillThenAbortFilled ≠ fillThenAbortTable := by
  refine ⟨by decide, by decide, ?_, by decide, by decide⟩
  exact clean_data_partial_mutation_persists creatorsCsv
    [creatorIdRule, usernameRule, followerCountRule] [avgViewsRule, categoryRule, bioRule]
    fillThenAbortTable fillThenAbortFilled []
    (.valueError ("creators.csv - Average views cannot be negative"))
    (by decide) (by decide)

/-- C8 counterexample: `clean_data` is not pure over its input table.  On this
creators table the clean succeeds, and the final state of the DataFrame object
that was passed in (mutated in place by the `df[col] = df[col].fillna(...)`
assignments) differs from the value it held before the call. -/
theorem clean_data_mutates_input_counterexample :
    (clean_data creatorsCsv creator_qa_pipeline fillOnlyTable).result = .ok fillOnlyCleaned ∧
    (clean_data creatorsCsv creator_qa_pipeline fillOnlyTable).final = fillOnlyCleaned ∧
    fillOnlyCleaned ≠ fillOnlyTable := by decide

theorem afterFill_state_no_post (fn : String) (qa : QARule) (t1 : Table)
    (hpost : qa.post_processing = []) : (afterFill fn qa t1).state = t1 := by
  unfold afterFill
  cases hr : runAssertions fn qa.assertions t1 with
  | mk l o => cases o <;> simp [hpost, applyPost]

theorem applyRule_state_no_mutation (fn : String) (qa : QARule) (t : Table)
    (hfill : qa.fill_na = none) (hpost : qa.post_processing = []) :
    (applyRule fn qa t).state = t := by
  by_cases hcol : qa.col ∈ t.cols
  · rw [applyRule, if_pos hcol, hfill]
    by_cases hnull : hasNull t qa.col = true
    · simp [hnull]
    · simp [hnull, afterFill_state_no_post fn qa t hpost]
  · rw [applyRule, if_neg hcol]

theorem clean_data_final_no_mutation (fn : String) (rules : List QARule) (t : Table)
    (h : ∀ r ∈ rules, r.fill_na = none ∧ r.post_processing = []) :
    (clean_data fn rules t).final = t := by
  induction rules generalizing t with
  | nil => simp [clean_data]
  | cons qa rest ih =>
    obtain ⟨hf, hp⟩ := h qa (by simp)
    have hstate := applyRule_state_no_mutation fn qa t hf hp
    cases hs : (applyRule fn qa t).err with
    | some e => simp [clean_data, hs, hstate]
    | none =>
      simp only [clean_data, hs]
      rw [hstate]
      exact ih t (fun r hr => h r (by simp [hr]))

/-- C8 amended: besides logging, `clean_data` does mutate its input table in
place — through the fill and post-processing column assignments, and through
nothing else.  Concretely: the cleaned table it returns on success is exactly
the final state of the input object, and a rule list with no `fill_na` and no
`post_processing` leaves the input object unchanged whatever happens. -/
theorem clean_data_effects_amended :
    (∀ fn rules t t2, (clean_data fn rules t).result = .ok t2 →
      (clean_data fn rules t).final = t2) ∧
    (∀ fn rules t, (∀ r ∈ rules, r.fill_na = none ∧ r.post_processing = []) →
      (clean_data fn rules t).final = t) :=
  ⟨clean_data_ok_final, clean_data_final_no_mutation⟩

/-- Witness for the amended C8: the successful clean of `fillOnlyTable`
returns exactly the mutated object state, and the two fill-free creator rules
leave a table unchanged. -/
theorem clean_data_effects_amended_witness :
    (clean_data creatorsCsv creator_qa_pipeline fillOnlyTable).result = .ok fillOnlyCleaned ∧
    (clean_data creatorsCsv creator_qa_pipeline fillOnlyTable).final = fillOnlyCleaned ∧
    (clean_data creatorsCsv [creatorIdRule, usernameRule] fillOnlyTable).final = fillOnlyTable := by
  refine ⟨by decide, ?_, ?_⟩
  · exact clean_data_effects_amended.1 creatorsCsv creator_qa_pipeline fillOnlyTable
      fillOnlyCleaned (by decide)
  · refine clean_data_effects_amended.2 creatorsCsv [creatorIdRule, usernameRule] fillOnlyTable ?_
    intro r hr
    rcases List.mem_cons.mp hr with h | hr2
    · subst h
      exact ⟨rfl, rfl⟩
    · rcases List.mem_cons.mp hr2 with h | h
      · subst h
        exact ⟨rfl, rfl⟩
      · exact absurd h (List.not_mem_nil r)

theorem runAssertions_abort (fn : String) (as1 : List QAAssertion) (a : QAAssertion)
    (as2 : List QAAssertion) (t : Table)
    (hskip : ∀ b ∈ as1, b.condition t = false ∨ b.should_fail = some false)
    (hcond : a.condition t = true) (hfail : a.should_fail ≠ some false) :
    (runAssertions fn (as1 ++ a :: as2) t).2 = some (abortError fn a) := by
  induction as1 with
  | nil =>
    rw [List.nil_append]
    cases hsf : a.should_fail with
    | none => simp [runAssertions, hcond, hsf, abortError]
    | some b =>
      cases b with
      | true => simp [runAssertions, hcond, hsf, abortError]
      | false => exact absurd hsf hfail
  | cons b bs ih =>
    have ihh := ih (fun x hx => hskip x (List.mem_cons_of_mem b hx))
    by_cases hbc : b.condition t = true
    · have hbs : b.should_fail = some false := by
        rcases hskip b (List.mem_cons_self b bs) with h | h
        · rw [h] at hbc
          cases hbc
        · exact h
      simp only [List.cons_append, runAssertions, hbc, hbs, if_true]
      simpa using ihh
    · have hbf : b.condition t = false := by
        simpa using hbc
      simp only [List.cons_append, runAssertions, hbf]
      simpa using ihh

theorem afterFill_abort (fn : String) (qa : QARule) (t1 : Table) (e : PyError)
    (h : (runAssertions fn qa.assertions t1).2 = some e) :
    (afterFill fn qa t1).err = some e ∧ (afterFill fn qa t1).state = t1 := by
  unfold afterFill
  cases hr : runAssertions fn qa.assertions t1 with
  | mk l o =>
    rw [hr] at h
    cases o with
    | none => cases h
    | some e2 =>
      have he : e2 = e := by
        injection h
      subst he
      exact ⟨rfl, rfl⟩

theorem applyRule_assert_abort (fn : String) (qa : QARule) (t : Table) (e : PyError)
    (hcol : qa.col ∈ t.cols)
    (hnonull : qa.fill_na = none → hasNull t qa.col = false)
    (h : (runAssertions fn qa.assertions (postFill qa t)).2 = some e) :
    (applyRule fn qa t).err = some e ∧ (applyRule fn qa t).state = postFill qa t := by
  rw [applyRule, if_pos hcol]
  cases hf : qa.fill_na with
  | some v =>
    have hpf : postFill qa t = fillCol t qa.col v := by
      simp [postFill, hf]
    rw [hpf] at h
    rw [hpf]
    exact afterFill_abort fn qa (fillCol t qa.col v) e h
  | none =>
    have hpf : postFill qa t = t := by
      simp [postFill, hf]
    rw [hpf] at h
    rw [hpf]
    simp only [hnonull hf, Bool.false_eq_true, if_false]
    exact afterFill_abort fn qa t e h

theorem negCell_spec (cell : Cell) (h : negCell cell = true) :
    ∃ n : Int, cell = some (.int n) ∧ n < 0 := by
  cases cell with
  | none => simp [negCell] at h
  | some v =>
    cases v with
    | int n =>
      refine ⟨n, rfl, ?_⟩
      simpa [negCell] using h
    | str s => simp [negCell] at h

theorem cellAt_cons_self (k : String) (cl : Cell) (rest : Row) :
    cellAt ((k, cl) :: rest) k = cl := by
  simp [cellAt, List.lookup]

theorem cellAt_cons_ne (k c : String) (hk : k ≠ c) (cl : Cell) (rest : Row) :
    cellAt ((k, cl) :: rest) c = cellAt rest c := by
  have hck : (c == k) = false := beq_eq_false_iff_ne.mpr (Ne.symm hk)
  simp [cellAt, List.lookup, hck]

theorem cellAt_fillRow_some (c : String) (v : Value) (r : Row) (x : Value)
    (h : cellAt r c = some x) : cellAt (fillRow c v r) c = some x := by
  induction r with
  | nil => simp [cellAt] at h
  | cons p r ih =>
    obtain ⟨k, cell⟩ := p
    by_cases hk : k = c
    · subst hk
      have hfr : fillRow k v ((k, cell) :: r) = (k, fillCell v cell) :: fillRow k v r := by
        simp [fillRow]
      rw [cellAt_cons_self] at h
      rw [hfr, cellAt_cons_self, h]
      rfl
    · have hfr : fillRow c v ((k, cell) :: r) = (k, cell) :: fillRow c v r := by
        simp [fillRow, hk]
      rw [cellAt_cons_ne k c hk] at h
      rw [hfr, cellAt_cons_ne k c hk]
      exact ih h

theorem anyCell_fillCol_neg (t : Table) (c : String) (v : Value)
    (h : anyCell t c negCell = true) : anyCell (fillCol t c v) c negCell = true := by
  rw [anyCell, List.any_eq_true] at h ⊢
  obtain ⟨cell, hmem, hneg⟩ := h
  rw [colCells, List.mem_map] at hmem
  obtain ⟨r, hr, hcell⟩ := hmem
  obtain ⟨n, hsome, hn⟩ := negCell_spec cell hneg
  refine ⟨cellAt (fillRow c v r) c, ?_, ?_⟩
  · rw [fillCol, colCells]
    exact List.mem_map.mpr ⟨fillRow c v r, List.mem_map.mpr ⟨r, hr, rfl⟩, rfl⟩
  · rw [cellAt_fillRow_some c v r (.int n) (by rw [hcell, hsome])]
    simpa [negCell] using hn

/-- C2: (first part) whenever execution reaches a rule whose assertion list
contains a fatal (`should_fail = True`) assertion whose predicate holds on the
current post-fill table state — the earlier assertions of the rule not
aborting — `clean_data` raises exactly that assertion's `ValueError` (the
spec's `IntegrityError`) and returns no cleaned table.  (Second part) in
particular, running the creators pipeline on any table that passed the first
two rules and holds a negative `follower_count` raises the
`Follower count cannot be negative` error, so no aggregation proceeds. -/
theorem clean_data_fatal_assertion_aborts :
    (∀ fn pre (r : QARule) post t t2 lg as1 (a : QAAssertion) as2,
      clean_data fn pre t = ⟨lg, .ok t2, t2⟩ →
      r.col ∈ t2.cols →
      (r.fill_na = none → hasNull t2 r.col = false) →
      r.assertions = as1 ++ a :: as2 →
      (∀ b ∈ as1, b.condition (postFill r t2) = false ∨ b.should_fail = some false) →
      a.condition (postFill r t2) = true →
      a.should_fail = some true →
      (clean_data fn (pre ++ r :: post) t).result =
        .error (.valueError (fn ++ " - " ++ a.message)) ∧
      isIntegrityError (.valueError (fn ++ " - " ++ a.message)) = true) ∧
    (∀ fn t t2 lg,
      clean_data fn [creatorIdRule, usernameRule] t = ⟨lg, .ok t2, t2⟩ →
      followerCountCol ∈ t2.cols →
      anyCell t2 followerCountCol negCell = true →
      (clean_data fn creator_qa_pipeline t).result =
        .error (.valueError (fn ++ " - " ++ followerNegAssertion.message))) := by
  have hA : ∀ fn pre (r : QARule) post t t2 lg as1 (a : QAAssertion) as2,
      clean_data fn pre t = ⟨lg, .ok t2, t2⟩ →
      r.col ∈ t2.cols →
      (r.fill_na = none → hasNull t2 r.col = false) →
      r.assertions = as1 ++ a :: as2 →
      (∀ b ∈ as1, b.condition (postFill r t2) = false ∨ b.should_fail = some false) →
      a.condition (postFill r t2) = true →
      a.should_fail = some true →
      (clean_data fn (pre ++ r :: post) t).result =
        .error (.valueError (fn ++ " - " ++ a.message)) ∧
      isIntegrityError (.valueError (fn ++ " - " ++ a.message)) = true := by
    intro fn pre r post t t2 lg as1 a as2 hpre hcol hnonull hsplit hskip hcond hfail
    have habort : (runAssertions fn r.assertions (postFill r t2)).2 =
        some (abortError fn a) := by
      rw [hsplit]
      exact runAssertions_abort fn as1 a as2 _ hskip hcond (by rw [hfail]; simp)
    have hae : abortError fn a = .valueError (fn ++ " - " ++ a.message) := by
      simp [abortError, hfail]
    have happly := applyRule_assert_abort fn r t2 _ hcol hnonull habort
    have hcons := clean_data_cons_error fn r post t2 _ happly.1
    have happ := clean_data_append fn pre (r :: post) t t2 lg hpre
    rw [happ, hcons, hae]
    exact ⟨rfl, rfl⟩
  refine ⟨hA, ?_⟩
  intro fn t t2 lg hpre hcol hneg
  have hcond : followerNegAssertion.condition (postFill followerCountRule t2) = true := by
    show anyCell (postFill followerCountRule t2) followerCountCol negCell = true
    have hpf : postFill followerCountRule t2 = fillCol t2 followerCountCol (.int 0) := by
      simp [postFill, followerCountRule]
    rw [hpf]
    exact anyCell_fillCol_neg t2 followerCountCol (.int 0) hneg
  have hmain := hA fn [creatorIdRule, usernameRule] followerCountRule
    [avgViewsRule, categoryRule, bioRule] t t2 lg [] followerNegAssertion [] hpre hcol
    (fun h => by simp [followerCountRule] at h)
    rfl
    (fun b hb => absurd hb (List.not_mem_nil b))
    hcond
    rfl
  exact hmain.1

/-- Witness for C2: a creators table whose only row has `follower_count = -5`
passes the first two rules unchanged and then `clean_data` on the full
creators pipeline raises the fatal follower-count `ValueError`. -/
theorem clean_data_fatal_assertion_aborts_witness :
    clean_data creatorsCsv [creatorIdRule, usernameRule] negFollowerTable =
      ⟨[], .ok negFollowerTable, negFollowerTable⟩ ∧
    anyCell negFollowerTable followerCountCol negCell = true ∧
    (clean_data creatorsCsv creator_qa_pipeline negFollowerTable).result =
      .error (.valueError (creatorsCsv ++ " - " ++ followerNegAssertion.message)) := by
  refine ⟨by decide, by decide, ?_⟩
  exact clean_data_fatal_assertion_aborts.2 creatorsCsv negFollowerTable negFollowerTable []
    (by decide) (by decide) (by decide)

/-- C9: an assertion whose dict has no `should_fail` key cannot act as a
non-fatal check — as soon as its predicate holds on the current table state,
`clean_data` raises `KeyError('should_fail')` (line 50 of `utils.py`) instead
of logging and continuing.  The creators `username` type assertion and the
`category`/`bio` type assertions are such entries. -/
theorem assertion_without_should_fail_raises_key_error
    (fn : String) (pre : List QARule) (r : QARule) (post : List QARule)
    (t t2 : Table) (lg : List LogEvent) (as1 : List QAAssertion) (a : QAAssertion)
    (as2 : List QAAssertion)
    (hpre : clean_data fn pre t = ⟨lg, .ok t2, t2⟩)
    (hcol : r.col ∈ t2.cols)
    (hnonull : r.fill_na = none → hasNull t2 r.col = false)
    (hsplit : r.assertions = as1 ++ a :: as2)
    (hskip : ∀ b ∈ as1, b.condition (postFill r t2) = false ∨ b.should_fail = some false)
    (hcond : a.condition (postFill r t2) = true)
    (hnokey : a.should_fail = none) :
    (clean_data fn (pre ++ r :: post) t).result = .error (.keyError shouldFailKey) := by
  have habort : (runAssertions fn r.assertions (postFill r t2)).2 =
      some (abortError fn a) := by
    rw [hsplit]
    exact runAssertions_abort fn as1 a as2 _ hskip hcond (by rw [hnokey]; simp)
  have hae : abortError fn a = .keyError shouldFailKey := by
    simp [abortError, hnokey]
  have happly := applyRule_assert_abort fn r t2 _ hcol hnonull habort
  have hcons := clean_data_cons_error fn r post t2 _ happly.1
  have happ := clean_data_append fn pre (r :: post) t t2 lg hpre
  rw [happ, hcons, hae]

/-- Witness for C9: a creators table whose `username` holds an integer makes
the keyless `username` type assertion fire, and the full creators pipeline
raises `KeyError('should_fail')`. -/
theorem assertion_without_should_fail_raises_key_error_witness :
    clean_data creatorsCsv [creatorIdRule] intUsernameTable =
      ⟨[], .ok intUsernameTable, intUsernameTable⟩ ∧
    usernameTypeAssertion.condition (postFill usernameRule intUsernameTable) = true ∧
    (clean_data creatorsCsv creator_qa_pipeline intUsernameTable).result =
      .error (.keyError shouldFailKey) := by
  refine ⟨by decide, by decide, ?_⟩
  exact assertion_without_should_fail_raises_key_error creatorsCsv [creatorIdRule] usernameRule
    [followerCountRule, avgViewsRule, categoryRule, bioRule] intUsernameTable intUsernameTable []
    [] usernameTypeAssertion [usernameEmptyAssertion]
    (by decide) (by decide) (by decide) rfl
    (fun b hb => absurd hb (List.not_mem_nil b)) (by decide) rfl

theorem matches_empty_iff (creators : Table) (rv : Row) :
    (creatorMatches creators rv).isEmpty = true ↔ hasCreatorMatch creators rv = false := by
  rw [creatorMatches, hasCreatorMatch, List.isEmpty_iff, List.filter_eq_nil_iff,
    List.any_eq_false]

theorem mergeRows_cons (creators : Table) (lc : List String) (rv : Row) (rest : List Row) :
    mergeRows creators lc (rv :: rest) =
      (if (creatorMatches creators rv).isEmpty then [(rv ++ naRight lc creators.cols, false)]
       else (creatorMatches creators rv).map (fun rc => (rv ++ renameRight lc rc, true)))
        ++ mergeRows creators lc rest := by
  rw [mergeRows, List.flatMap_cons]
  rfl

theorem has_match_of_not_empty (creators : Table) (rv : Row)
    (hm : ¬(creatorMatches creators rv).isEmpty = true) :
    hasCreatorMatch creators rv = true := by
  cases hmc : hasCreatorMatch creators rv with
  | false => exact absurd ((matches_empty_iff creators rv).mpr hmc) hm
  | true => rfl

theorem unmatched_count_aux (creators : Table) (lc : List String) (rows : List Row) :
    ((mergeRows creators lc rows).filter (fun p => !p.2)).length =
      (rows.filter (fun rv => !hasCreatorMatch creators rv)).length := by
  induction rows with
  | nil => rfl
  | cons rv rest ih =>
    rw [mergeRows_cons, List.filter_append, List.length_append, ih]
    by_cases hm : (creatorMatches creators rv).isEmpty = true
    · have hmatch : hasCreatorMatch creators rv = false := (matches_empty_iff creators rv).mp hm
      simp [hm, hmatch, Nat.add_comm]
    · have hmatch : hasCreatorMatch creators rv = true := has_match_of_not_empty creators rv hm
      simp [hm, hmatch, List.filter_map]
  
theorem filter_key_len_le_one (rows : List Row) (k : Cell)
    (hnd : (rows.map (fun rc => cellAt rc creatorIdCol)).Nodup) :
    (rows.filter (fun rc => cellAt rc creatorIdCol == k)).length ≤ 1 := by
  induction rows with
  | nil => simp
  | cons rc rest ih =>
    rw [List.map_cons, List.nodup_cons] at hnd
    obtain ⟨hnotin, hnd2⟩ := hnd
    rw [List.filter_cons]
    by_cases hk : (cellAt rc creatorIdCol == k) = true
    · rw [if_pos hk]
      have hrest : rest.filter (fun rc2 => cellAt rc2 creatorIdCol == k) = [] := by
        rw [List.filter_eq_nil_iff]
        intro rc2 hrc2 hbeq
        have h1 : cellAt rc2 creatorIdCol = k := by simpa using hbeq
        have h2 : cellAt rc creatorIdCol = k := by simpa using hk
        refine hnotin ?_
        rw [h2, ← h1]
        exact List.mem_map_of_mem _ hrc2
      rw [hrest]
      simp
    · rw [if_neg hk]
      exact ih hnd2

theorem restrict_append_self (r ext : Row) (cols : List String)
    (hr : r.map Prod.fst = cols) (hnd : cols.Nodup) :
    restrictRow cols (r ++ ext) = r := by
  induction r generalizing cols ext with
  | nil =>
    rw [← hr]
    rfl
  | cons p r ih =>
    obtain ⟨k, cl⟩ := p
    rw [List.map_cons] at hr
    subst hr
    rw [List.nodup_cons] at hnd
    obtain ⟨hk, hnd2⟩ := hnd
    rw [restrictRow, List.map_cons]
    congr 1
    · rw [List.cons_append, cellAt_cons_self]
    · have hstep : ∀ c ∈ r.map Prod.fst,
          (c, cellAt (((k, cl) :: r) ++ ext) c) = (c, cellAt (r ++ ext) c) := by
        intro c hc
        have hne : k ≠ c := fun he => hk (he ▸ hc)
        rw [List.cons_append, cellAt_cons_ne k c hne]
      rw [List.map_congr_left hstep]
      exact ih ext (r.map Prod.fst) rfl hnd2

theorem merged_restrict_aux (creators : Table) (cols : List String) (rows : List Row)
    (hwf : ∀ rv ∈ rows, rv.map Prod.fst = cols) (hnodupC : cols.Nodup)
    (hkeys : (creators.rows.map (fun rc => cellAt rc creatorIdCol)).Nodup) :
    ((mergeRows creators cols rows).filter (fun p => p.2)).map
        (fun p => restrictRow cols p.1) =
      rows.filter (fun rv => hasCreatorMatch creators rv) := by
  induction rows with
  | nil => rfl
  | cons rv rest ih =>
    have hwfv := hwf rv (List.mem_cons_self rv rest)
    have ih2 := ih (fun x hx => hwf x (List.mem_cons_of_mem rv hx))
    rw [mergeRows_cons, List.filter_append, List.map_append, ih2]
    by_cases hm : (creatorMatches creators rv).isEmpty = true
    · have hmatch : hasCreatorMatch creators rv = false := (matches_empty_iff creators rv).mp hm
      simp [hm, hmatch]
    · have hmatch : hasCreatorMatch creators rv = true := has_match_of_not_empty creators rv hm
      have hlen := filter_key_len_le_one creators.rows (cellAt rv creatorIdCol) hkeys
      obtain ⟨rc, hrc⟩ : ∃ rc, creatorMatches creators rv = [rc] := by
        cases hms : creatorMatches creators rv with
        | nil =>
          rw [hms] at hm
          exact (hm rfl).elim
        | cons rc0 tl =>
          cases htl : tl with
          | nil => exact ⟨rc0, rfl⟩
          | cons b tl2 =>
            rw [htl] at hms
            rw [creatorMatches] at hms
            rw [hms] at hlen
            simp at hlen
      simp only [hm, if_false, hrc, hmatch, List.filter_cons_of_pos]
      simp [restrict_append_self rv _ cols hwfv hnodupC]

/-- C3: `process_data` keeps exactly the video rows whose `creator_id` matches
some creator row.  First part: the reported unmatched count is the number of
video rows with no matching creator, and a positive count is logged as a
single warning (processing does not fail).  Second part: for well-formed
tables (rows bind the schema, creator ids unique in the creators table), the
video-side projection of the merged rows is exactly the matching video rows in
order.  Third part: the concrete example — creators `{1}`, videos
`{(101,1),(102,999)}` — yields exactly one merged record, with `video_id` 101,
and unmatched count 1. -/
theorem process_data_join_filters_unmatched :
    (∀ videos creators,
      (process_data videos creators).2.1 =
        (videos.rows.filter (fun rv => !hasCreatorMatch creators rv)).length ∧
      ((process_data videos creators).2.1 > 0 →
        (process_data videos creators).2.2 =
          [.warning ("Found " ++ toString (process_data videos creators).2.1 ++
            " videos with unmatched creator_id")])) ∧
    (∀ videos creators,
      (∀ rv ∈ videos.rows, rv.map Prod.fst = videos.cols) →
      videos.cols.Nodup →
      (creators.rows.map (fun rc => cellAt rc creatorIdCol)).Nodup →
      (process_data videos creators).1.rows.map (restrictRow videos.cols) =
        videos.rows.filter (fun rv => hasCreatorMatch creators rv)) ∧
    ((process_data joinVideosEx joinCreatorsEx).1.rows.map (fun r => cellAt r videoIdCol) =
        [some (.int 101)] ∧
      (process_data joinVideosEx joinCreatorsEx).2.1 = 1) := by
  refine ⟨?_, ?_, by decide⟩
  · intro videos creators
    constructor
    · show ((merged_all videos creators).filter (fun p => !p.2)).length = _
      exact unmatched_count_aux creators videos.cols videos.rows
    · intro hpos
      show (if (process_data videos creators).2.1 > 0 then _ else _) = _
      rw [if_pos hpos]
      rfl
  · intro videos creators hwf hnd hkeys
    rw [show (process_data videos creators).1.rows =
      ((merged_all videos creators).filter (fun p => p.2)).map Prod.fst from rfl,
      List.map_map]
    exact merged_restrict_aux creators videos.cols videos.rows hwf hnd hkeys

/-- Witness for C3: the general parts applied to the example tables. -/
theorem process_data_join_filters_unmatched_witness :
    (process_data joinVideosEx joinCreatorsEx).2.1 =
      (joinVideosEx.rows.filter
        (fun rv => !hasCreatorMatch joinCreatorsEx rv)).length ∧
    (process_data joinVideosEx joinCreatorsEx).1.rows.map (restrictRow joinVideosEx.cols) =
      joinVideosEx.rows.filter (fun rv => hasCreatorMatch joinCreatorsEx rv) := by
  refine ⟨(process_data_join_filters_unmatched.1 joinVideosEx joinCreatorsEx).1, ?_⟩
  exact process_data_join_filters_unmatched.2.1 joinVideosEx joinCreatorsEx
    (by decide) (by decide) (by decide)

theorem containsStr_int_map (vals : List Int) :
    containsStrCell (vals.map (fun n => some (.int n))) = false := by
  induction vals with
  | nil => rfl
  | cons a l ih =>
    simp only [List.map_cons, containsStrCell, List.any_cons]
    simp only [containsStrCell] at ih
    simp [ih]

theorem filterMap_int_map (vals : List Int) :
    (vals.map (fun n => some (.int n))).filterMap intOfCell = vals := by
  induction vals with
  | nil => rfl
  | cons a l ih =>
    simp only [List.map_cons, List.filterMap_cons, intOfCell]
    rw [ih]

/-- C5: `get_average_views_total` raises the spec's `SchemaError` (the
`ValueError` of line 93 of `process.py`) exactly when the `views` column is
absent from the merged table, and on an integer-valued `views` column it
returns the mean of the values. -/
theorem average_views_total_spec :
    (∀ merged, get_average_views_total merged = .error schemaErrViews ↔
      viewsCol ∉ merged.cols) ∧
    (∀ merged (vals : List Int), viewsCol ∈ merged.cols →
      colCells merged viewsCol = vals.map (fun n => some (.int n)) →
      vals ≠ [] →
      get_average_views_total merged =
        .ok (some ((vals.sum : Rat) / (vals.length : Rat)))) := by
  constructor
  · intro merged
    constructor
    · intro h hmem
      rw [get_average_views_total, if_pos hmem, seriesMean] at h
      by_cases hs : containsStrCell (colCells merged viewsCol) = true
      · rw [if_pos hs] at h
        simp [schemaErrViews] at h
      · rw [if_neg hs] at h
        cases h
    · intro hnot
      rw [get_average_views_total, if_neg hnot]
  · intro merged vals hmem hcells hne
    rw [get_average_views_total, if_pos hmem, seriesMean]
    have hnostr : containsStrCell (colCells merged viewsCol) = false := by
      rw [hcells]
      exact containsStr_int_map vals
    rw [hnostr]
    simp only [Bool.false_eq_true, if_false]
    have hvals : (colCells merged viewsCol).filterMap intOfCell = vals := by
      rw [hcells]
      exact filterMap_int_map vals
    rw [meanIntCells]
    rw [hvals]
    simp [List.isEmpty_iff, hne]

/-- Witness for C5: views `[100, 200]` give mean 150, and a table without a
`views` column fails with the schema error. -/
theorem average_views_total_spec_witness :
    get_average_views_total viewsMeanTable = .ok (some 150) ∧
    get_average_views_total noViewsTable = .error schemaErrViews := by
  constructor
  · have h := average_views_total_spec.2 viewsMeanTable [100, 200] (by decide) (by decide)
      (by decide)
    rw [h]
    have hm : ((([100, 200] : List Int).sum : Rat) /
        (([100, 200] : List Int).length : Rat)) = 150 := by
      norm_num
    rw [hm]
  · exact (average_views_total_spec.1 noViewsTable).mpr (by decide)

theorem exceptMap_mem (f : Value → Except PyError CreatorStatsRecord) (vs : List Value)
    (rs : List CreatorStatsRecord) (h : exceptMap f vs = .ok rs) :
    ∀ r ∈ rs, ∃ v ∈ vs, f v = .ok r := by
  induction vs generalizing rs with
  | nil =>
    rw [exceptMap] at h
    injection h with h2
    subst h2
    simp
  | cons v vs ih =>
    rw [exceptMap] at h
    cases hf : f v with
    | error e =>
      rw [hf] at h
      cases h
    | ok r0 =>
      rw [hf] at h
      cases hrest : exceptMap f vs with
      | error e =>
        rw [hrest] at h
        cases h
      | ok rs0 =>
        rw [hrest] at h
        injection h with h2
        subst h2
        intro r hr
        rcases List.mem_cons.mp hr with hh | hh
        · subst hh
          exact ⟨v, List.mem_cons_self v vs, hf⟩
        · obtain ⟨v2, hv2, hfv2⟩ := ih rs0 hrest r hh
          exact ⟨v2, List.mem_cons_of_mem v hv2, hfv2⟩

/-- C4: in every record `generate_creator_stats_table` builds, the virality
score is the guarded expression of line 244 of `process.py`: with
`follower_count = 0` it is the plain number 0 — `np.log` is never applied, so
no domain error can arise, whatever the engagement — and with
`follower_count > 0` it is `np.log` of totalEngagement / followerCount. -/
theorem virality_score_zero_guard
    (ranker : List String → Nat → List String) (today upd : String)
    (creators merged : Table) (recs : List CreatorStatsRecord)
    (h : generate_creator_stats_table ranker today upd creators merged = .ok recs) :
    ∀ r ∈ recs,
      (r.follower_count = 0 → r.virality_score = .num 0) ∧
      (0 < r.follower_count → r.virality_score =
        .npLog ((totalEngagement (groupRows merged r.creator_id) : Rat) /
          (r.follower_count : Rat))) := by
  intro r hr
  obtain ⟨v, hv, hbuild⟩ := exceptMap_mem _ _ _ h r hr
  cases hinfo : (creators.rows.filter (fun rw2 => cellAt rw2 creatorIdCol == some v)).head? with
  | none =>
    rw [buildOne, hinfo] at hbuild
    cases hbuild
  | some info =>
    simp only [buildOne, hinfo] at hbuild
    cases hfc : intOfCell (cellAt info followerCountCol) with
    | none =>
      rw [hfc] at hbuild
      cases hbuild
    | some f =>
      rw [hfc] at hbuild
      injection hbuild with hrec
      subst hrec
      refine ⟨fun h0 => ?_, fun hpos => ?_⟩
      · have h0f : f = 0 := h0
        show (buildRecord ranker today upd merged v info f).virality_score = .num 0
        simp [buildRecord, h0f]
      · have hposf : 0 < f := hpos
        show (buildRecord ranker today upd merged v info f).virality_score =
          .npLog ((totalEngagement (groupRows merged v) : Rat) / (f : Rat))
        simp [buildRecord, hposf]

/-- Witness for C4: the `test_virality_score_edge_case` data — one creator
with zero followers, one video with positive engagement — builds exactly one
record whose virality score is the number 0. -/
theorem virality_score_zero_guard_witness :
    generate_creator_stats_table trivialRanker "2026-01-01" "t" zeroFollowerCreators
        zeroFollowerMerged = .ok [zeroFollowerRecord] ∧
    zeroFollowerRecord.follower_count = 0 ∧
    zeroFollowerRecord.virality_score = .num 0 := by
  refine ⟨rfl, rfl, ?_⟩
  exact (virality_score_zero_guard trivialRanker "2026-01-01" "t" zeroFollowerCreators
    zeroFollowerMerged [zeroFollowerRecord] rfl zeroFollowerRecord
    (List.mem_singleton.mpr rfl)).1 rfl

/-- C7: on a degenerate corpus — an empty text sequence, or texts whose every
token is cleaned away (all stop words, or nothing but whitespace and
punctuation) — both ranking operations return the empty result instead of
raising: `_extract_keywords` returns the empty mapping and
`_get_top_keywords_for_text_series` the empty list. -/
theorem keyword_ranking_degenerate_empty (texts : List String) (ids : List Value) (topN : Nat)
    (h : texts = [] ∨ ∀ t ∈ texts, tokenize t = []) :
    extract_keywords texts ids topN = [] ∧
    get_top_keywords_for_text_series texts topN = [] := by
  cases h with
  | inl he =>
    subst he
    exact ⟨rfl, rfl⟩
  | inr hall =>
    have hjoin : (texts.map tokenize).flatten = [] := by
      rw [List.flatten_eq_nil_iff]
      intro l hl
      rw [List.mem_map] at hl
      obtain ⟨t, ht, hrw⟩ := hl
      rw [← hrw]
      exact hall t ht
    have hvocab : vocabOf (texts.map tokenize) = [] := by
      rw [vocabOf, hjoin]
      rfl
    constructor
    · rw [extract_keywords]
      by_cases hemp : texts.isEmpty = true
      · rw [if_pos hemp]
      · rw [if_neg hemp, hvocab]
        simp
    · rw [get_top_keywords_for_text_series]
      by_cases hws : texts.all (fun t => t.data.all Char.isWhitespace) = true
      · rw [if_pos hws]
      · rw [if_neg hws, hvocab]
        simp

/-- Witness for C7: two texts, one all stop words and one blank, yield the
empty mapping and the empty list. -/
theorem keyword_ranking_degenerate_empty_witness :
    extract_keywords degenerateTexts [.int 1, .int 2] 3 = [] ∧
    get_top_keywords_for_text_series degenerateTexts 3 = [] :=
  keyword_ranking_degenerate_empty degenerateTexts [.int 1, .int 2] 3 (Or.inr (by decide))

theorem sqrt_ge_of_sq_le (x c : ℝ) (_hc : 0 ≤ c) (h : c ^ 2 ≤ x) :
    c ≤ Real.sqrt x := by
  have hx : 0 ≤ x := le_trans (sq_nonneg c) h
  have h2 := Real.sq_sqrt hx
  nlinarith [Real.sqrt_nonneg x]

theorem sqrt_le_of_le_sq (x c : ℝ) (hc : 0 ≤ c) (h : x ≤ c ^ 2) :
    Real.sqrt x ≤ c := by
  by_cases hx : 0 ≤ x
  · have h2 := Real.sq_sqrt hx
    nlinarith [Real.sqrt_nonneg x]
  · rw [Real.sqrt_eq_zero_of_nonpos (le_of_not_le hx)]
    exact hc

set_option maxHeartbeats 2000000 in
/-- C6: the pooled ranking sums each term's per-document TF-IDF score over
all documents and returns the top-N terms in descending order of summed
score, ties broken stably by vocabulary order (Python's stable sort over the
vocabulary-ordered zip).  First part: the ranked pair list is always sorted
descending by summed score.  Second part: on the captions `"viral viral
trend"`, `"viral trend cool"`, `"viral something else"` with `topN = 2` the
result is exactly `["viral", "trend"]`, in that order. -/
theorem rank_pooled_sorted_and_example :
    (∀ docs : List (List String),
      List.Sorted (fun a b : String × ℝ => b.2 ≤ a.2) (rankPooledPairs docs)) ∧
    get_top_keywords_for_text_series exampleCaptions 2 = ["viral", "trend"] := by
  constructor
  · intro docs
    exact List.sorted_insertionSort _ _
  · have htok : exampleCaptions.map tokenize = exampleDocs := by decide
    have hidfv : idf exampleDocs "viral" = 1 := by
      rw [idf]
      rw [show dfCount exampleDocs "viral" = 3 from by decide]
      rw [show exampleDocs.length = 3 from by decide]
      norm_num [Real.log_one]
    have hidft : idf exampleDocs "trend" = Real.log ((4:ℝ)/3) + 1 := by
      rw [idf]
      rw [show dfCount exampleDocs "trend" = 2 from by decide]
      rw [show exampleDocs.length = 3 from by decide]
      norm_num
    have hidfc : idf exampleDocs "cool" = Real.log 2 + 1 := by
      rw [idf]
      rw [show dfCount exampleDocs "cool" = 1 from by decide]
      rw [show exampleDocs.length = 3 from by decide]
      norm_num
    have hnormexp : ∀ d, docNorm exampleDocs d =
        Real.sqrt (rawVal exampleDocs d "cool" ^ 2 +
          (rawVal exampleDocs d "trend" ^ 2 + (rawVal exampleDocs d "viral" ^ 2 + 0))) :=
      fun d => rfl
    have hexp : ∀ t, pooledScore exampleDocs t =
        normVal exampleDocs ["viral", "viral", "trend"] t +
          (normVal exampleDocs ["viral", "trend", "cool"] t +
            (normVal exampleDocs ["viral"] t + 0)) := fun t => rfl
    have tveq1 : tf ["viral", "viral", "trend"] "viral" = 2 := by decide
    have tveq2 : tf ["viral", "trend", "cool"] "viral" = 1 := by decide
    have tveq3 : tf ["viral"] "viral" = 1 := by decide
    have tteq1 : tf ["viral", "viral", "trend"] "trend" = 1 := by decide
    have tteq2 : tf ["viral", "trend", "cool"] "trend" = 1 := by decide
    have tteq3 : tf ["viral"] "trend" = 0 := by decide
    have tceq1 : tf ["viral", "viral", "trend"] "cool" = 0 := by decide
    have tceq2 : tf ["viral", "trend", "cool"] "cool" = 1 := by decide
    have tceq3 : tf ["viral"] "cool" = 0 := by decide
    have hn1 : docNorm exampleDocs ["viral", "viral", "trend"] =
        Real.sqrt ((Real.log ((4:ℝ)/3) + 1) ^ 2 + 4) := by
      rw [hnormexp]
      congr 1
      simp only [rawVal]
      rw [tceq1, tteq1, tveq1, hidfc, hidft, hidfv]
      push_cast
      ring
    have hn2 : docNorm exampleDocs ["viral", "trend", "cool"] =
        Real.sqrt ((Real.log 2 + 1) ^ 2 + ((Real.log ((4:ℝ)/3) + 1) ^ 2 + 1)) := by
      rw [hnormexp]
      congr 1
      simp only [rawVal]
      rw [tceq2, tteq2, tveq2, hidfc, hidft, hidfv]
      push_cast
      ring
    have hn3 : docNorm exampleDocs ["viral"] = 1 := by
      rw [hnormexp]
      simp only [rawVal]
      rw [tceq3, tteq3, tveq3, hidfc, hidft, hidfv]
      push_cast
      rw [show ((0:ℝ) * (Real.log 2 + 1)) ^ 2 +
        ((0 * (Real.log ((4:ℝ)/3) + 1)) ^ 2 + ((1 * 1) ^ 2 + 0)) = 1 from by ring]
      exact Real.sqrt_one
    have hsv : pooledScore exampleDocs "viral" =
        2 / Real.sqrt ((Real.log ((4:ℝ)/3) + 1) ^ 2 + 4) +
          (1 / Real.sqrt ((Real.log 2 + 1) ^ 2 + ((Real.log ((4:ℝ)/3) + 1) ^ 2 + 1)) + 1) := by
      rw [hexp]
      simp only [normVal, rawVal]
      rw [hn1, hn2, hn3, hidfv, tveq1, tveq2, tveq3]
      push_cast
      ring
    have hst : pooledScore exampleDocs "trend" =
        (Real.log ((4:ℝ)/3) + 1) / Real.sqrt ((Real.log ((4:ℝ)/3) + 1) ^ 2 + 4) +
          (Real.log ((4:ℝ)/3) + 1) /
            Real.sqrt ((Real.log 2 + 1) ^ 2 + ((Real.log ((4:ℝ)/3) + 1) ^ 2 + 1)) := by
      rw [hexp]
      simp only [normVal, rawVal]
      rw [hn1, hn2, hn3, hidft, tteq1, tteq2, tteq3]
      push_cast
      ring
    have hsc : pooledScore exampleDocs "cool" =
        (Real.log 2 + 1) /
          Real.sqrt ((Real.log 2 + 1) ^ 2 + ((Real.log ((4:ℝ)/3) + 1) ^ 2 + 1)) := by
      rw [hexp]
      simp only [normVal, rawVal]
      rw [hn1, hn2, hn3, hidfc, tceq1, tceq2, tceq3]
      push_cast
      ring
    have hL2lo : (0.6931 : ℝ) < Real.log 2 := by
      have := Real.log_two_gt_d9
      linarith
    have hL2hi : Real.log 2 < 0.6932 := by
      have := Real.log_two_lt_d9
      linarith
    have hLlo : (1/4 : ℝ) ≤ Real.log ((4:ℝ)/3) := by
      have h34 : Real.log ((3:ℝ)/4) ≤ 3/4 - 1 :=
        Real.log_le_sub_one_of_pos (by norm_num)
      have hinv : ((4:ℝ)/3) = ((3:ℝ)/4)⁻¹ := by norm_num
      rw [hinv, Real.log_inv]
      linarith
    have hLhi : Real.log ((4:ℝ)/3) ≤ 1/3 := by
      have := Real.log_le_sub_one_of_pos (show (0:ℝ) < 4/3 by norm_num)
      linarith
    have hA2lo : (1.5625 : ℝ) ≤ (Real.log ((4:ℝ)/3) + 1) ^ 2 := by
      nlinarith [hLlo, hLhi]
    have hA2hi : (Real.log ((4:ℝ)/3) + 1) ^ 2 ≤ 16/9 := by
      nlinarith [hLlo, hLhi]
    have hB2lo : (2.8665 : ℝ) ≤ (Real.log 2 + 1) ^ 2 := by
      nlinarith [hL2lo, hL2hi]
    have hB2hi : (Real.log 2 + 1) ^ 2 ≤ 2.867 := by
      nlinarith [hL2lo, hL2hi]
    have hn1lo : (2.35 : ℝ) ≤ Real.sqrt ((Real.log ((4:ℝ)/3) + 1) ^ 2 + 4) := by
      apply sqrt_ge_of_sq_le _ _ (by norm_num)
      have hc : ((2.35:ℝ)) ^ 2 = 5.5225 := by norm_num
      rw [hc]
      linarith
    have hn1hi : Real.sqrt ((Real.log ((4:ℝ)/3) + 1) ^ 2 + 4) ≤ 2.41 := by
      apply sqrt_le_of_le_sq _ _ (by norm_num)
      have hc : ((2.41:ℝ)) ^ 2 = 5.8081 := by norm_num
      rw [hc]
      linarith
    have hn2lo : (2.33 : ℝ) ≤
        Real.sqrt ((Real.log 2 + 1) ^ 2 + ((Real.log ((4:ℝ)/3) + 1) ^ 2 + 1)) := by
      apply sqrt_ge_of_sq_le _ _ (by norm_num)
      have hc : ((2.33:ℝ)) ^ 2 = 5.4289 := by norm_num
      rw [hc]
      linarith
    have hn2hi : Real.sqrt ((Real.log 2 + 1) ^ 2 + ((Real.log ((4:ℝ)/3) + 1) ^ 2 + 1)) ≤
        2.38 := by
      apply sqrt_le_of_le_sq _ _ (by norm_num)
      have hc : ((2.38:ℝ)) ^ 2 = 5.6644 := by norm_num
      rw [hc]
      linarith
    have hn1pos : (0:ℝ) < Real.sqrt ((Real.log ((4:ℝ)/3) + 1) ^ 2 + 4) :=
      lt_of_lt_of_le (by norm_num) hn1lo
    have hn2pos : (0:ℝ) <
        Real.sqrt ((Real.log 2 + 1) ^ 2 + ((Real.log ((4:ℝ)/3) + 1) ^ 2 + 1)) :=
      lt_of_lt_of_le (by norm_num) hn2lo
    have hAlo : (1.25 : ℝ) ≤ Real.log ((4:ℝ)/3) + 1 := by linarith
    have hAhi : Real.log ((4:ℝ)/3) + 1 ≤ 4/3 := by linarith
    have hBhi : Real.log 2 + 1 ≤ 1.6932 := by linarith
    have hApos : (0:ℝ) ≤ Real.log ((4:ℝ)/3) + 1 := by linarith
    have hQtv : pooledScore exampleDocs "trend" < pooledScore exampleDocs "viral" := by
      rw [hst, hsv]
      have h1 : (Real.log ((4:ℝ)/3) + 1) / Real.sqrt ((Real.log ((4:ℝ)/3) + 1) ^ 2 + 4) ≤
          (4/3 : ℝ) / 2.35 := div_le_div₀ (by norm_num) hAhi (by norm_num) hn1lo
      have h2 : (Real.log ((4:ℝ)/3) + 1) /
          Real.sqrt ((Real.log 2 + 1) ^ 2 + ((Real.log ((4:ℝ)/3) + 1) ^ 2 + 1)) ≤
          (4/3 : ℝ) / 2.33 := div_le_div₀ (by norm_num) hAhi (by norm_num) hn2lo
      have h3 : (2 : ℝ) / 2.41 ≤ 2 / Real.sqrt ((Real.log ((4:ℝ)/3) + 1) ^ 2 + 4) :=
        div_le_div₀ (by norm_num) (le_refl 2) hn1pos hn1hi
      have h4 : (1 : ℝ) / 2.38 ≤
          1 / Real.sqrt ((Real.log 2 + 1) ^ 2 + ((Real.log ((4:ℝ)/3) + 1) ^ 2 + 1)) :=
        div_le_div₀ (by norm_num) (le_refl 1) hn2pos hn2hi
      have hnum : (4/3 : ℝ)/2.35 + (4/3 : ℝ)/2.33 < 2/2.41 + (1/2.38 + 1) := by norm_num
      linarith
    have hQct : pooledScore exampleDocs "cool" < pooledScore exampleDocs "trend" := by
      rw [hsc, hst]
      have h1 : (Real.log 2 + 1) /
          Real.sqrt ((Real.log 2 + 1) ^ 2 + ((Real.log ((4:ℝ)/3) + 1) ^ 2 + 1)) ≤
          (1.6932 : ℝ) / 2.33 := div_le_div₀ (by norm_num) hBhi (by norm_num) hn2lo
      have h2 : (1.25 : ℝ) / 2.41 ≤
          (Real.log ((4:ℝ)/3) + 1) / Real.sqrt ((Real.log ((4:ℝ)/3) + 1) ^ 2 + 4) :=
        div_le_div₀ hApos hAlo hn1pos hn1hi
      have h3 : (1.25 : ℝ) / 2.38 ≤ (Real.log ((4:ℝ)/3) + 1) /
          Real.sqrt ((Real.log 2 + 1) ^ 2 + ((Real.log ((4:ℝ)/3) + 1) ^ 2 + 1)) :=
        div_le_div₀ hApos hAlo hn2pos hn2hi
      have hnum : (1.6932 : ℝ)/2.33 < 1.25/2.41 + 1.25/2.38 := by norm_num
      linarith
    have hQcv : pooledScore exampleDocs "cool" < pooledScore exampleDocs "viral" :=
      lt_trans hQct hQtv
    have hoi1 : ∀ x : String × ℝ,
        List.orderedInsert (fun a b : String × ℝ => b.2 ≤ a.2) x [] = [x] := fun x => rfl
    have hoi2 : ∀ (s1 s2 : String) (x y : ℝ) (l : List (String × ℝ)),
        List.orderedInsert (fun a b : String × ℝ => b.2 ≤ a.2) (s1, x) ((s2, y) :: l) =
          if y ≤ x then (s1, x) :: (s2, y) :: l
          else (s2, y) :: List.orderedInsert (fun a b : String × ℝ => b.2 ≤ a.2) (s1, x) l :=
      fun _ _ _ _ _ => rfl
    have hsort : List.insertionSort (fun a b : String × ℝ => b.2 ≤ a.2)
        [("cool", pooledScore exampleDocs "cool"),
         ("trend", pooledScore exampleDocs "trend"),
         ("viral", pooledScore exampleDocs "viral")] =
        [("viral", pooledScore exampleDocs "viral"),
         ("trend", pooledScore exampleDocs "trend"),
         ("cool", pooledScore exampleDocs "cool")] := by
      simp only [List.insertionSort]
      rw [hoi1, hoi2, if_neg (not_le.mpr hQtv), hoi1, hoi2, if_neg (not_le.mpr hQcv),
        hoi2, if_neg (not_le.mpr hQct), hoi1]
    rw [get_top_keywords_for_text_series]
    rw [if_neg (by decide)]
    rw [htok]
    rw [if_neg (by decide)]
    rw [rankPooledPairs]
    rw [show vocabOf exampleDocs = ["cool", "trend", "viral"] from by decide]
    simp only [List.map_cons, List.map_nil]
    rw [hsort]
    rfl
